import Mathlib

/-!
Verification of the identity-linking data model and the two reactive
post-save hooks of `uniauth/models.py`.

The embedding is a shallow one: the database is a `Store` record holding
the rows of each table, together with a fresh-id counter; each Django
`objects.create` call appends a row and bumps the counter; the two signal
handlers `create_user_profile` and `clear_old_tmp_users` become functions
on `Store`.  Persistence-layer failures (a `create` that raises) are
modelled by boolean failure switches; a raised exception becomes
`Except.error` carrying the store at the moment of failure, so that
partial persistence is observable.  Timestamps (`date_joined`,
`timezone.now()`) are natural numbers of microseconds since the epoch;
`datetime.replace(hour=0, minute=0, second=0, microsecond=0)` becomes
flooring to a multiple of a day, and `timedelta(days=d)` becomes
`d * microsecondsPerDay` (subtraction truncates at the epoch, which no
claim reaches).
-/

/-- Number of microseconds in one calendar day (Python datetime resolution). -/
def microsecondsPerDay : Nat := 86400000000

/-- Model of `.replace(hour=0, minute=0, second=0, microsecond=0)` on a
timestamp: floor to the start of its calendar day. -/
def dayFloor (t : Nat) : Nat := t / microsecondsPerDay * microsecondsPerDay

/-- A row of the external user store (Django's user model): `id`, `username`,
`email` (possibly the empty string) and the `date_joined` creation
timestamp in microseconds since the epoch. -/
structure User where
  id : Nat
  username : String
  email : String
  date_joined : Nat
  deriving DecidableEq

/-- `UserProfile`: one-to-one extension of a user (`user` holds the user id,
`null=False`). -/
structure UserProfile where
  id : Nat
  user : Nat
  deriving DecidableEq

/-- `LinkedEmail`: an email address linked to a profile.  `profile` is a
foreign key to `UserProfile` (`null=False`), `address` the email string,
`is_verified` a boolean defaulting to false. -/
structure LinkedEmail where
  id : Nat
  profile : Nat
  address : String
  is_verified : Bool
  deriving DecidableEq

/-- `Institution`: name, globally unique slug, and CAS server URL. -/
structure Institution where
  id : Nat
  name : String
  slug : String
  cas_server_url : String
  deriving DecidableEq

/-- `InstitutionAccount`: links a profile to an institution through the
CAS-assigned `cas_id`. -/
structure InstitutionAccount where
  id : Nat
  profile : Nat
  institution : Nat
  cas_id : String
  deriving DecidableEq

/-- The database: one list of rows per table, plus a fresh-id counter used
by the `create` operations. -/
structure Store where
  users : List User
  profiles : List UserProfile
  linked_emails : List LinkedEmail
  institutions : List Institution
  accounts : List InstitutionAccount
  nextId : Nat
  deriving DecidableEq

/-- `UserProfile.objects.create(user=...)`: append a fresh profile row and
return it with the updated store. -/
def UserProfile.create (s : Store) (userId : Nat) : UserProfile × Store :=
  let p : UserProfile := ⟨s.nextId, userId⟩
  (p, { s with profiles := s.profiles ++ [p], nextId := s.nextId + 1 })

/-- `LinkedEmail.objects.create(profile=..., address=..., is_verified=...)`:
append a fresh linked-email row and return it with the updated store. -/
def LinkedEmail.create (s : Store) (profileId : Nat) (address : String)
    (is_verified : Bool) : LinkedEmail × Store :=
  let e : LinkedEmail := ⟨s.nextId, profileId, address, is_verified⟩
  (e, { s with linked_emails := s.linked_emails ++ [e], nextId := s.nextId + 1 })

/-- The `create_user_profile` post-save receiver.  `created` is the signal's
flag; `inst` the saved user instance (`instance` is a Lean keyword).
`profileCreateOk` and `emailCreateOk` model whether the two persistence
calls succeed; a failing call raises, which surfaces as `Except.error`
carrying the rows persisted up to that point.  The Python guard
`if profile and instance.email` reduces to the email being non-empty,
since a freshly created model object is always truthy. -/
def create_user_profile (s : Store) (inst : User) (created : Bool)
    (profileCreateOk emailCreateOk : Bool) : Except Store Store :=
  if created then
    if profileCreateOk then
      let pr := UserProfile.create s inst.id
      if inst.email ≠ "" then
        if emailCreateOk then
          Except.ok (LinkedEmail.create pr.2 pr.1.id inst.email true).2
        else
          Except.error pr.2
      else
        Except.ok pr.2
    else
      Except.error s
  else
    Except.ok s

/-- The queryset filter `username__startswith='tmp-'`, rendered on the
character list of the username (the character-level reading of the string
prefix test). -/
def startsWithTmp (username : String) : Bool :=
  "tmp-".data.isPrefixOf username.data

/-- The `clear_old_tmp_users` post-save receiver.  `hasDateJoined` models
`hasattr(user_model, 'date_joined')`; `now` is `timezone.now()` and
`timeoutDays` the `PASSWORD_RESET_TIMEOUT_DAYS` setting.  The queryset
delete removes every user whose username starts with `"tmp-"` and whose
`date_joined` is strictly before the day-floored cutoff; the declared
`on_delete=CASCADE` relations then remove the profiles of deleted users
and the linked emails and accounts of those profiles. -/
def clear_old_tmp_users (s : Store) (created : Bool) (hasDateJoined : Bool)
    (now : Nat) (timeoutDays : Nat) : Store :=
  if created then
    if hasDateJoined then
      let tmp_expire_date := dayFloor (now - timeoutDays * microsecondsPerDay)
      let doomed : User → Bool := fun u =>
        startsWithTmp u.username && decide (u.date_joined < tmp_expire_date)
      let doomedProfile : UserProfile → Bool := fun p =>
        s.users.any (fun u => doomed u && u.id == p.user)
      { s with
        users := s.users.filter (fun u => !(doomed u)),
        profiles := s.profiles.filter (fun p => !(doomedProfile p)),
        linked_emails := s.linked_emails.filter (fun e =>
          !(s.profiles.any (fun p => doomedProfile p && p.id == e.profile))),
        accounts := s.accounts.filter (fun a =>
          !(s.profiles.any (fun p => doomedProfile p && p.id == a.profile))) }
    else
      s
  else
    s

/-- Django dispatches the two receivers of `post_save` in registration
order: `create_user_profile` first, then `clear_old_tmp_users`; an
exception in the first propagates and the second never runs. -/
def post_save_user (s : Store) (inst : User) (created : Bool)
    (hasDateJoined : Bool) (now timeoutDays : Nat)
    (profileCreateOk emailCreateOk : Bool) : Except Store Store :=
  match create_user_profile s inst created profileCreateOk emailCreateOk with
  | Except.error s1 => Except.error s1
  | Except.ok s1 => Except.ok (clear_old_tmp_users s1 created hasDateJoined now timeoutDays)

/-- The store reached by a fallible handler, whether it returned or raised
(on `Except.error` the carried store is what remained persisted). -/
def resultStore (r : Except Store Store) : Store :=
  match r with
  | Except.ok s => s
  | Except.error s => s

/-- Number of profile rows owned by the given user id. -/
def countProfilesFor (s : Store) (userId : Nat) : Nat :=
  (s.profiles.filter (fun p => p.user == userId)).length

/-- The `try ... except: return "NULL"` wrapper shared by every `__str__`:
a body that resolved produces its string, a body that raised produces the
fixed marker `"NULL"`. -/
def tryRender (body : Option String) : String := body.getD "NULL"

/-- Follow a `UserProfile.user` foreign key; `none` models the broken
relation whose access raises. -/
def findUser (s : Store) (i : Nat) : Option User :=
  s.users.find? (fun u => u.id == i)

/-- Follow a foreign key to `UserProfile`. -/
def findProfile (s : Store) (i : Nat) : Option UserProfile :=
  s.profiles.find? (fun p => p.id == i)

/-- Follow a foreign key to `Institution`. -/
def findInstitution (s : Store) (i : Nat) : Option Institution :=
  s.institutions.find? (fun j => j.id == i)

/-- `UserProfile.__str__`: `self.user.email or self.user.username` guarded
by `try/except` — the Python `or` yields the username when the email
string is empty (falsy). -/
def UserProfile.str (s : Store) (p : UserProfile) : String :=
  tryRender ((findUser s p.user).map (fun u =>
    if u.email ≠ "" then u.email else u.username))

/-- `LinkedEmail.__str__`: `"%s | %s" % (self.profile, self.address)`
guarded by `try/except`; rendering the related profile goes through its
own guarded `__str__`. -/
def LinkedEmail.str (s : Store) (e : LinkedEmail) : String :=
  tryRender ((findProfile s e.profile).map (fun p =>
    UserProfile.str s p ++ " | " ++ e.address))

/-- `Institution.__str__`: `self.slug` guarded by `try/except` (the body
reads a local column, which cannot fail in this embedding). -/
def Institution.str (i : Institution) : String :=
  tryRender (some i.slug)

/-- `InstitutionAccount.__str__`:
`"%s | %s | account" % (self.profile, self.institution)` guarded by
`try/except`; either foreign-key access may raise. -/
def InstitutionAccount.str (s : Store) (a : InstitutionAccount) : String :=
  tryRender (match findProfile s a.profile, findInstitution s a.institution with
    | some p, some i => some (UserProfile.str s p ++ " | " ++ Institution.str i ++ " | account")
    | _, _ => none)

/-- The constraints the model declarations impose on a store: every foreign
key resolves (`null=False` targets exist), primary keys are unique,
`UserProfile.user` is one-to-one, and `Institution.slug` is globally
unique.  Note that no field of `LinkedEmail` carries a uniqueness
constraint. -/
def storeValidB (s : Store) : Bool :=
  decide (s.users.map User.id).Nodup &&
  decide (s.profiles.map UserProfile.id).Nodup &&
  decide (s.linked_emails.map LinkedEmail.id).Nodup &&
  decide (s.institutions.map Institution.id).Nodup &&
  decide (s.accounts.map InstitutionAccount.id).Nodup &&
  s.profiles.all (fun p => s.users.any (fun u => u.id == p.user)) &&
  decide (s.profiles.map UserProfile.user).Nodup &&
  s.linked_emails.all (fun e => s.profiles.any (fun p => p.id == e.profile)) &&
  decide (s.institutions.map Institution.slug).Nodup &&
  s.accounts.all (fun a =>
    s.profiles.any (fun p => p.id == a.profile) &&
    s.institutions.any (fun i => i.id == a.institution))

/-- A store with no rows at all. -/
def emptyStore : Store := ⟨[], [], [], [], [], 0⟩

/-- A temporary user created at the epoch (its calendar day is day 0). -/
def tmpUser0 : User := ⟨1, "tmp-x", "", 0⟩

/-- A store holding only `tmpUser0`. -/
def store0 : Store := ⟨[tmpUser0], [], [], [], [], 2⟩

/-- A user created with a non-empty email, for concrete witnesses. -/
def aliceUser : User := ⟨1, "alice", "a@x.com", 0⟩

/-- A user created with an empty email, for concrete witnesses. -/
def bobUser : User := ⟨2, "bob", "", 0⟩

/-- A valid store holding `aliceUser` and her profile (id 10). -/
def baseStore : Store := ⟨[aliceUser], [⟨10, 1⟩], [], [], [], 11⟩

/-- An old non-temporary user (created at the epoch). -/
def oldRegularUser : User := ⟨3, "carol", "", 0⟩

/-- A store holding only `oldRegularUser`. -/
def store1 : Store := ⟨[oldRegularUser], [], [], [], [], 4⟩

/-- C1: on a post-save event with the `created` flag set, the
`create_user_profile` handler persists exactly one new `UserProfile`, and
its `user` is the newly created user.  The statement holds for every
prior store, even one already containing a profile for that user: the
handler is guarded solely by the `created` flag and performs no post-hoc
uniqueness check, and a single run of the event adds exactly one profile
for the user. -/
theorem spec_C1 (s : Store) (inst : User) (emailCreateOk : Bool) :
    (resultStore (create_user_profile s inst true true emailCreateOk)).profiles
      = s.profiles ++ [⟨s.nextId, inst.id⟩] ∧
    countProfilesFor (resultStore (create_user_profile s inst true true emailCreateOk)) inst.id
      = countProfilesFor s inst.id + 1 := by
  have h : (resultStore (create_user_profile s inst true true emailCreateOk)).profiles
      = s.profiles ++ [⟨s.nextId, inst.id⟩] := by
    by_cases he : inst.email = "" <;> cases emailCreateOk <;>
      simp [create_user_profile, UserProfile.create, LinkedEmail.create, resultStore, he]
  refine ⟨h, ?_⟩
  rw [countProfilesFor, countProfilesFor, h, List.filter_append]
  simp

/-- C6: when the user model lacks a `date_joined` field, the retention
sweep does nothing and raises nothing, for every store, flag value, time
and window. -/
theorem spec_C6 (s : Store) (created : Bool) (now timeoutDays : Nat) :
    clear_old_tmp_users s created false now timeoutDays = s := by
  cases created <;> rfl

/-- C8: on a post-save event with `created = false` (a user update),
neither handler changes any state: `create_user_profile` returns the
store unchanged, `clear_old_tmp_users` returns the store unchanged, and
the whole dispatch is the identity. -/
theorem spec_C8 (s : Store) (inst : User) (hasDateJoined profileCreateOk emailCreateOk : Bool)
    (now timeoutDays : Nat) :
    create_user_profile s inst false profileCreateOk emailCreateOk = Except.ok s ∧
    clear_old_tmp_users s false hasDateJoined now timeoutDays = s ∧
    post_save_user s inst false hasDateJoined now timeoutDays profileCreateOk emailCreateOk
      = Except.ok s := by
  refine ⟨rfl, rfl, rfl⟩

/-- C9: the created-user handler is not atomic.  If the profile creation
succeeds but the linked-email creation then fails (the user has a
non-empty email), the handler raises — and the store carried at the
failure point still contains the freshly persisted profile while holding
no new linked email: the profile is not rolled back. -/
theorem spec_C9 (s : Store) (inst : User) (he : inst.email ≠ "") :
    create_user_profile s inst true true false =
      Except.error { s with
        profiles := s.profiles ++ [⟨s.nextId, inst.id⟩],
        nextId := s.nextId + 1 } := by
  simp [create_user_profile, UserProfile.create, he]

/-- Concrete instance of `spec_C9`: creating `aliceUser` over the empty
store with a failing email persistence raises, leaving exactly her
profile persisted and no linked email. -/
theorem spec_C9_witness :
    create_user_profile emptyStore aliceUser true true false =
      Except.error { emptyStore with
        profiles := emptyStore.profiles ++ [⟨emptyStore.nextId, aliceUser.id⟩],
        nextId := emptyStore.nextId + 1 } :=
  spec_C9 emptyStore aliceUser (by decide)

/-- C2: on a user-created event, (i) when the email field is non-empty the
nominal run persists exactly one `LinkedEmail` whose `profile` is the id
of the freshly created profile, whose `address` is the user's email and
whose `is_verified` flag is true; (ii) when the email field is empty no
linked email is created whatever the failure switches; (iii) seeding runs
only when profile creation returned a usable handle: a failed profile
creation raises before any linked email is created. -/
theorem spec_C2 (s : Store) (inst : User) :
    (inst.email ≠ "" →
      create_user_profile s inst true true true =
        Except.ok { s with
          profiles := s.profiles ++ [⟨s.nextId, inst.id⟩],
          linked_emails := s.linked_emails ++ [⟨s.nextId + 1, s.nextId, inst.email, true⟩],
          nextId := s.nextId + 2 }) ∧
    (inst.email = "" → ∀ profileCreateOk emailCreateOk : Bool,
      (resultStore (create_user_profile s inst true profileCreateOk emailCreateOk)).linked_emails
        = s.linked_emails) ∧
    (∀ emailCreateOk : Bool,
      create_user_profile s inst true false emailCreateOk = Except.error s) := by
  refine ⟨?_, ?_, ?_⟩
  · intro he
    simp [create_user_profile, UserProfile.create, LinkedEmail.create, he]
  · intro he pOk eOk
    cases pOk <;> cases eOk <;>
      simp [create_user_profile, UserProfile.create, LinkedEmail.create, resultStore, he]
  · intro eOk
    simp [create_user_profile]

/-- Concrete instance of `spec_C2`: creating `aliceUser` (email
`"a@x.com"`) over the empty store seeds exactly one verified linked
email for her fresh profile; creating `bobUser` (empty email) seeds
none; a failed profile creation raises with the store unchanged. -/
theorem spec_C2_witness :
    create_user_profile emptyStore aliceUser true true true =
      Except.ok { emptyStore with
        profiles := emptyStore.profiles ++ [⟨emptyStore.nextId, aliceUser.id⟩],
        linked_emails := emptyStore.linked_emails ++
          [⟨emptyStore.nextId + 1, emptyStore.nextId, aliceUser.email, true⟩],
        nextId := emptyStore.nextId + 2 } ∧
    (resultStore (create_user_profile emptyStore bobUser true true true)).linked_emails
      = emptyStore.linked_emails ∧
    create_user_profile emptyStore aliceUser true false true = Except.error emptyStore :=
  ⟨(spec_C2 emptyStore aliceUser).1 (by decide),
   (spec_C2 emptyStore bobUser).2.1 rfl true true,
   (spec_C2 emptyStore aliceUser).2.2 true⟩

/-- C3: a sweep on a user-created event (with the `date_joined` capability
present) keeps exactly the users that are not (tmp-prefixed and created
strictly before the cutoff), where the cutoff is now minus the configured
window in days, floored to midnight of that calendar day.  Equivalently,
it deletes exactly the tmp-prefixed users older than that cutoff. -/
theorem spec_C3 (s : Store) (now timeoutDays : Nat) (u : User) :
    u ∈ (clear_old_tmp_users s true true now timeoutDays).users ↔
      u ∈ s.users ∧
        ¬(startsWithTmp u.username = true ∧
          u.date_joined < dayFloor (now - timeoutDays * microsecondsPerDay)) := by
  by_cases ht : startsWithTmp u.username = true
  · by_cases hd : u.date_joined < dayFloor (now - timeoutDays * microsecondsPerDay)
    · simp [clear_old_tmp_users, List.mem_filter, ht, hd]
    · simp [clear_old_tmp_users, List.mem_filter, ht, hd]
  · have ht' : startsWithTmp u.username = false := by simpa using ht
    simp [clear_old_tmp_users, List.mem_filter, ht']

/-- C4: a user whose name does not start with `"tmp-"` is never deleted by
the sweep, whatever the flags, the time and the window, however old the
user is. -/
theorem spec_C4 (s : Store) (created hasDateJoined : Bool) (now timeoutDays : Nat)
    (u : User) (hu : u ∈ s.users) (hn : startsWithTmp u.username = false) :
    u ∈ (clear_old_tmp_users s created hasDateJoined now timeoutDays).users := by
  cases created <;> cases hasDateJoined <;>
    simp [clear_old_tmp_users, List.mem_filter, hu, hn]

/-- Concrete instance of `spec_C4`: `oldRegularUser` was created at the
epoch, yet a sweep three days later with a one-day window keeps it. -/
theorem spec_C4_witness :
    oldRegularUser ∈
      (clear_old_tmp_users store1 true true (3 * microsecondsPerDay) 1).users :=
  spec_C4 store1 true true (3 * microsecondsPerDay) 1 oldRegularUser
    (by decide) (by decide)

/-- Counterexample to C5 as stated: the claim quantifies over every
configured retention window, but with a zero-day window a tmp-prefixed
user created on day 0 (here at the epoch itself) is deleted by a sweep
run on day 1 — the cutoff is midnight of day 1, which lies after the
user's creation instant.  All the claim's premises hold (the user is in
the store, tmp-prefixed, created on day D = 0, and the sweep runs on day
D + 1), yet the user is gone. -/
theorem spec_C5_cex :
    tmpUser0 ∈ store0.users ∧
    startsWithTmp tmpUser0.username = true ∧
    0 * microsecondsPerDay ≤ tmpUser0.date_joined ∧
    tmpUser0.date_joined < 1 * microsecondsPerDay ∧
    1 * microsecondsPerDay ≤ microsecondsPerDay ∧
    microsecondsPerDay < 2 * microsecondsPerDay ∧
    tmpUser0 ∉ (clear_old_tmp_users store0 true true microsecondsPerDay 0).users := by
  decide

/-- The day-floored cutoff of a sweep run before the end of day `D + 1`
with a window of at least one day lies at or before midnight of day `D`,
hence at or before any timestamp of day `D`. -/
lemma dayFloor_cutoff_le (now timeoutDays D dj : Nat) (hw : 1 ≤ timeoutDays)
    (hd1 : D * microsecondsPerDay ≤ dj)
    (hn2 : now < (D + 2) * microsecondsPerDay) :
    dayFloor (now - timeoutDays * microsecondsPerDay) ≤ dj := by
  have μpos : 0 < microsecondsPerDay := by decide
  have h1 : now - timeoutDays * microsecondsPerDay ≤ now - microsecondsPerDay :=
    Nat.sub_le_sub_left (Nat.le_mul_of_pos_left _ hw) now
  have h2 : dayFloor (now - timeoutDays * microsecondsPerDay) ≤ now - microsecondsPerDay :=
    le_trans (Nat.div_mul_le_self _ _) h1
  have h3 : now - microsecondsPerDay < (D + 1) * microsecondsPerDay := by
    rcases Nat.lt_or_ge now microsecondsPerDay with h | h
    · have h0 : now - microsecondsPerDay = 0 := Nat.sub_eq_zero_of_le (le_of_lt h)
      rw [h0]
      exact Nat.mul_pos (Nat.succ_pos D) μpos
    · rw [Nat.sub_lt_iff_lt_add h]
      have e : microsecondsPerDay + (D + 1) * microsecondsPerDay
          = (D + 2) * microsecondsPerDay := by ring
      rw [e]
      exact hn2
  have h4 : dayFloor (now - timeoutDays * microsecondsPerDay)
      < (D + 1) * microsecondsPerDay := lt_of_le_of_lt h2 h3
  have h5 : (now - timeoutDays * microsecondsPerDay) / microsecondsPerDay < D + 1 :=
    lt_of_mul_lt_mul_right h4 (Nat.zero_le _)
  have h6 : dayFloor (now - timeoutDays * microsecondsPerDay) ≤ D * microsecondsPerDay :=
    Nat.mul_le_mul_right _ (Nat.lt_succ_iff.mp h5)
  exact le_trans h6 hd1

/-- C5 (amended): for every retention window of at least one day, a
tmp-prefixed user whose creation timestamp falls on calendar day `D` is
not deleted by any sweep run on day `D` or day `D + 1` — the day-floor
of the cutoff guarantees the grace.  (The original claim allowed every
window; a zero-day window violates it, see the counterexample.) -/
theorem spec_C5 (s : Store) (created hasDateJoined : Bool) (now timeoutDays D : Nat)
    (u : User) (hw : 1 ≤ timeoutDays) (hu : u ∈ s.users)
    (hd1 : D * microsecondsPerDay ≤ u.date_joined)
    (hd2 : u.date_joined < (D + 1) * microsecondsPerDay)
    (hn1 : D * microsecondsPerDay ≤ now)
    (hn2 : now < (D + 2) * microsecondsPerDay) :
    u ∈ (clear_old_tmp_users s created hasDateJoined now timeoutDays).users := by
  cases created with
  | false => simpa [clear_old_tmp_users] using hu
  | true =>
    cases hasDateJoined with
    | false => simpa [clear_old_tmp_users] using hu
    | true =>
      have key : ¬ (u.date_joined < dayFloor (now - timeoutDays * microsecondsPerDay)) :=
        not_lt.mpr (dayFloor_cutoff_le now timeoutDays D u.date_joined hw hd1 hn2)
      simp [clear_old_tmp_users, List.mem_filter, hu, key]

/-- Concrete instance of `spec_C5`: `tmpUser0` was created at the epoch
(day 0); a sweep at the very start of day 1 with a one-day window keeps
it. -/
theorem spec_C5_witness :
    tmpUser0 ∈ (clear_old_tmp_users store0 true true microsecondsPerDay 1).users :=
  spec_C5 store0 true true microsecondsPerDay 1 0 tmpUser0
    (by decide) (by decide) (by decide) (by decide) (by decide) (by decide)

/-- C7: every entity's string rendering is total by construction (each is
`tryRender` of an optional body, so it returns a string in every case),
and whenever resolving the entity's relations fails the rendering
returns the fixed marker `"NULL"` rather than propagating the failure:
a profile whose user row is missing, a linked email whose profile row is
missing, an account either of whose foreign keys is broken.  An
institution's body reads only its own column, so its guarded rendering
always yields the slug. -/
theorem spec_C7 :
    tryRender none = "NULL" ∧
    (∀ (s : Store) (p : UserProfile), findUser s p.user = none →
      UserProfile.str s p = "NULL") ∧
    (∀ (s : Store) (e : LinkedEmail), findProfile s e.profile = none →
      LinkedEmail.str s e = "NULL") ∧
    (∀ (s : Store) (a : InstitutionAccount),
      findProfile s a.profile = none ∨ findInstitution s a.institution = none →
      InstitutionAccount.str s a = "NULL") ∧
    (∀ i : Institution, Institution.str i = tryRender (some i.slug)) := by
  refine ⟨rfl, ?_, ?_, ?_, fun i => rfl⟩
  · intro s p h
    simp [UserProfile.str, h, tryRender]
  · intro s e h
    simp [LinkedEmail.str, h, tryRender]
  · intro s a h
    rcases h with h | h
    · simp [InstitutionAccount.str, h, tryRender]
    · rcases hp : findProfile s a.profile with _ | p <;>
        simp [InstitutionAccount.str, h, hp, tryRender]

/-- Concrete instance of `spec_C7`: over the empty store every relation is
broken, and each rendering returns `"NULL"`. -/
theorem spec_C7_witness :
    UserProfile.str emptyStore ⟨10, 1⟩ = "NULL" ∧
    LinkedEmail.str emptyStore ⟨11, 10, "a@x.com", true⟩ = "NULL" ∧
    InstitutionAccount.str emptyStore ⟨12, 10, 7, "cas1"⟩ = "NULL" :=
  ⟨spec_C7.2.1 emptyStore ⟨10, 1⟩ rfl,
   spec_C7.2.2.1 emptyStore ⟨11, 10, "a@x.com", true⟩ rfl,
   spec_C7.2.2.2.1 emptyStore ⟨12, 10, 7, "cas1"⟩ (Or.inl rfl)⟩

/-- C10: no uniqueness constraint guards `LinkedEmail`.  Starting from a
valid store holding one user and her profile, two successive
linked-email creations with the same profile and the same address, both
verified, produce a store that still satisfies every constraint the
model declares (`storeValidB`) while holding two verified rows with the
same address for the same profile. -/
theorem spec_C10 :
    storeValidB (LinkedEmail.create (LinkedEmail.create baseStore 10 "a@x.com" true).2
        10 "a@x.com" true).2 = true ∧
    ((LinkedEmail.create (LinkedEmail.create baseStore 10 "a@x.com" true).2
        10 "a@x.com" true).2.linked_emails.filter
      (fun e => e.profile == 10 && e.address == "a@x.com" && e.is_verified)).length = 2 := by
  decide
